import Mathlib

/-!
Shallow embedding of the Healthify multimodal search engine
(`src/lib/searchEngine.py`, `src/lib/loadData.py`, `src/lib/minimal_search_engine.py`).

Modelling conventions:
* numpy float vectors are modelled as lists of rationals (`Vec`);
* the external embedding models (SentenceTransformer `encode`, CLIP
  `encode_text` / `encode_image`) and `faiss.normalize_L2` are opaque
  collaborators, modelled as function parameters bundled in `Models`;
* `faiss.IndexFlatIP` is a flat list of stored vectors; its `search`
  method is modelled as exact top-k by inner-product score (descending,
  ties by insertion position): `faissSearch` gives the `min k ntotal`
  genuine hits, and `faissSearchP` additionally models the
  `(-FLT_MAX, -1)` sentinel slots emitted when `k > ntotal`, which the
  source's `idx < len(mapping)` guard lets through to a Python
  `mapping[-1]` read;
* Python code that can raise is modelled with `Except String`;
  a caught-and-logged exception is a value-level branch.
-/

namespace Healthify

/-- A dense embedding vector (numpy row), modelled over the rationals. -/
abbrev Vec := List ℚ

/-- `np.zeros n`: the n-dimensional zero vector. -/
def zeroVec (n : Nat) : Vec := List.replicate n 0

/-- Inner product of two vectors, as computed by `faiss.IndexFlatIP`. -/
def ipScore (q v : Vec) : ℚ := (List.zipWith (fun a b => a * b) q v).sum

/-- A `DatasetItem` record as built by `MedicalDatasetLoader`
(`loadData.py`): dict with keys id/dataset/type/content/snippet/
metadata/file_path.  Metadata values are strings (the on-disk JSON dump
uses `default=str`). -/
structure DatasetItem where
  id : String
  dataset : String
  type : String
  content : String
  snippet : String
  metadata : List (String × String)
  file_path : String
  deriving DecidableEq

/-- A search-result record as built by `search_text` / `search_images`
(`searchEngine.py` lines 345-355 and 381-391). -/
structure SearchResult where
  id : String
  dataset : String
  type : String
  content : String
  snippet : String
  metadata : List (String × String)
  file_path : String
  relevance_score : ℚ
  search_type : String
  deriving DecidableEq

/-- The CLIP image model: a text encoder (used for querying the image
index) and an image encoder.  `encode_image` returns `none` when the
image file cannot be opened or decoded (the `except` branch of
`generate_image_embeddings`). -/
structure ImageModel where
  encode_text : String → Vec
  encode_image : DatasetItem → Option Vec

/-- The external models held by the loader / engine: the
SentenceTransformer text model, the CLIP model (each `none` when not
initialized), and `faiss.normalize_L2` acting row-wise. -/
structure Models where
  text_model : Option (String → Vec)
  image_model : Option ImageModel
  normalize : Vec → Vec

/-- The mutable state of `MedicalSearchEngine` (plus the loader's
`loaded_data` dict): vector indexes (`None` until built) and their
positional item mappings. -/
structure Engine where
  loaded_csv : List DatasetItem
  loaded_text : List DatasetItem
  loaded_image : List DatasetItem
  text_index : Option (List Vec)
  image_index : Option (List Vec)
  text_mapping : List DatasetItem
  image_mapping : List DatasetItem
  deriving DecidableEq

/-- The on-disk cache directory: `text_index.faiss`,
`text_mapping.json`, `image_index.faiss`, `image_mapping.json`; `none`
means the file does not exist.  `faiss.write_index`/`read_index` and
the JSON dump/load of the mapping are byte-for-byte round-trips, so a
file is modelled as holding the stored value itself. -/
structure CacheDir where
  text_index_file : Option (List Vec)
  text_mapping_file : Option (List DatasetItem)
  image_index_file : Option (List Vec)
  image_mapping_file : Option (List DatasetItem)
  deriving DecidableEq

/-- Descending order on a rational key: the comparator of a Python
`sort(key=..., reverse=True)`.  A stable sort with this comparator
keeps the original order of equal keys, exactly as Python's stable
sort does. -/
abbrev byDescKey {α : Type} (key : α → ℚ) (a b : α) : Prop := key b ≤ key a

instance {α : Type} (key : α → ℚ) : IsTotal α (byDescKey key) :=
  ⟨fun a b => le_total (key b) (key a)⟩

instance {α : Type} (key : α → ℚ) : IsTrans α (byDescKey key) :=
  ⟨fun _ _ _ h1 h2 => le_trans h2 h1⟩

/-- Comparator for FAISS hits: descending score; ties keep insertion
position under a stable sort. -/
abbrev scoreDesc : (ℚ × Nat) → (ℚ × Nat) → Prop := byDescKey Prod.fst

/-- Model of `faiss.IndexFlatIP.search(q, k)`: score every stored
vector by inner product with the query, order by descending score
(stable, so ties keep insertion order) and keep the first `k`.
(The real library additionally pads the result slots with sentinel
`(-FLT_MAX, -1)` entries when `k > ntotal`; `faissSearchP` below models
those too.)  Returns `(score, position)` pairs. -/
def faissSearch (index : List Vec) (q : Vec) (k : Nat) : List (ℚ × Nat) :=
  (List.insertionSort scoreDesc (index.enum.map (fun p => (ipScore q p.2, p.1)))).take k

/-- Build one result dict from a mapping item and a FAISS score
(`searchEngine.py` lines 345-355 / 381-391). -/
def mkResult (search_type : String) (item : DatasetItem) (score : ℚ) : SearchResult :=
  { id := item.id, dataset := item.dataset, type := item.type, content := item.content,
    snippet := item.snippet, metadata := item.metadata, file_path := item.file_path,
    relevance_score := score, search_type := search_type }

/-- The loop body of `search_text`/`search_images`: `if idx <
len(mapping): results.append(...)`. -/
def lookupHit (mapping : List DatasetItem) (search_type : String) (h : ℚ × Nat) :
    Option SearchResult :=
  if hlt : h.2 < mapping.length then some (mkResult search_type (mapping.get ⟨h.2, hlt⟩) h.1)
  else none

/-- Append an optional element (the `if ...: results.append(...)`
pattern). -/
def appendOpt {α : Type} (r : List α) (o : Option α) : List α :=
  match o with
  | some a => r ++ [a]
  | none => r

/-- `MedicalSearchEngine.search_text` (lines 329-358): returns `[]`
when the text index or the text model is missing; otherwise embeds the
query, normalizes it, queries the FAISS index and collects the guarded
hits in order. -/
def search_text (m : Models) (e : Engine) (query : String) (top_k : Nat) :
    List SearchResult :=
  match e.text_index, m.text_model with
  | some index, some encode =>
      let query_embedding := m.normalize (encode query)
      (faissSearch index query_embedding top_k).foldl
        (fun results h => appendOpt results (lookupHit e.text_mapping "text" h)) []
  | _, _ => []

/-- `MedicalSearchEngine.search_images` (lines 360-394): CLIP text
embedding of the query against the image index. -/
def search_images (m : Models) (e : Engine) (query : String) (top_k : Nat) :
    List SearchResult :=
  match e.image_index, m.image_model with
  | some index, some im =>
      let query_embedding := m.normalize (im.encode_text query)
      (faissSearch index query_embedding top_k).foldl
        (fun results h => appendOpt results (lookupHit e.image_mapping "image" h)) []
  | _, _ => []

/-- Comparator used by `results.sort(key=relevance_score, reverse=True)`:
descending score, stable on ties. -/
abbrev resultDesc : SearchResult → SearchResult → Prop :=
  byDescKey SearchResult.relevance_score

/-- `MedicalSearchEngine.search` (lines 298-327): gather text results
when `search_types` (default all three) requests csv or text, image
results when it requests image, sort merged results by descending
relevance score, return the first `top_k`. -/
def search (m : Models) (e : Engine) (query : String) (top_k : Nat)
    (search_types : Option (List String)) : List SearchResult :=
  let st := search_types.getD ["csv", "text", "image"]
  let results := if st.contains "csv" || st.contains "text"
    then search_text m e query top_k else []
  let results := if st.contains "image"
    then results ++ search_images m e query top_k else results
  (List.insertionSort resultDesc results).take top_k

/-- State-passing translation of `search_text`: the method body contains
no assignment to any `self` field, so the state it returns is the state
it received. -/
def search_text_st (m : Models) (e : Engine) (query : String) (top_k : Nat) :
    List SearchResult × Engine :=
  (search_text m e query top_k, e)

/-- State-passing translation of `search_images`: no `self` field is
assigned in the method body. -/
def search_images_st (m : Models) (e : Engine) (query : String) (top_k : Nat) :
    List SearchResult × Engine :=
  (search_images m e query top_k, e)

/-- State-passing translation of `search`: threads the engine state
through both sub-searches; the merge/sort/truncate acts on a local
list. -/
def search_st (m : Models) (e : Engine) (query : String) (top_k : Nat)
    (search_types : Option (List String)) : List SearchResult × Engine :=
  let st := search_types.getD ["csv", "text", "image"]
  let tr := if st.contains "csv" || st.contains "text"
    then search_text_st m e query top_k else ([], e)
  let ir := if st.contains "image"
    then search_images_st m tr.2 query top_k else ([], tr.2)
  ((List.insertionSort resultDesc (tr.1 ++ ir.1)).take top_k, ir.2)

/-- `MedicalDatasetLoader.generate_text_embeddings` (`loadData.py`
lines 342-352): raises `RuntimeError` when the text model is not
initialized (modelled as `.error`); otherwise encodes every item's
`content` in order.  There is no `try`/`except` in this method, so an
error propagates to the caller. -/
def generate_text_embeddings (m : Models) (data_items : List DatasetItem) :
    Except String (List Vec) :=
  match m.text_model with
  | none => .error "Text model not initialized. Call initialize_models() first."
  | some encode => .ok (data_items.map (fun item => encode item.content))

/-- `MedicalDatasetLoader.generate_image_embeddings` (lines 354-384):
raises `RuntimeError` when the image model is not initialized; otherwise
produces one embedding per item in order, substituting `np.zeros(512)`
for any image whose decode/encode fails (per-item `except` branch). -/
def generate_image_embeddings (m : Models) (data_items : List DatasetItem) :
    Except String (List Vec) :=
  match m.image_model with
  | none => .error "Image model not initialized. Call initialize_models() first."
  | some im => .ok (data_items.map (fun item => (im.encode_image item).getD (zeroVec 512)))

/-- `MedicalSearchEngine.build_text_index` (lines 155-206): combine the
loader's csv and text items; if empty, warn and leave the state alone;
otherwise embed, L2-normalize row-wise, store the vectors in a fresh
`IndexFlatIP` and record the item list as `text_mapping`.  A failure of
`generate_text_embeddings` propagates (there is no `try`/`except`). -/
def build_text_index (m : Models) (e : Engine) : Except String Engine :=
  let text_data := e.loaded_csv ++ e.loaded_text
  if text_data.isEmpty then .ok e
  else
    match generate_text_embeddings m text_data with
    | .error msg => .error msg
    | .ok embeddings =>
        .ok { e with text_index := some (embeddings.map m.normalize),
                     text_mapping := text_data }

/-- `MedicalSearchEngine.build_image_index` (lines 182-206): same shape
as `build_text_index` over the loader's image items. -/
def build_image_index (m : Models) (e : Engine) : Except String Engine :=
  let image_data := e.loaded_image
  if image_data.isEmpty then .ok e
  else
    match generate_image_embeddings m image_data with
    | .error msg => .error msg
    | .ok embeddings =>
        .ok { e with image_index := some (embeddings.map m.normalize),
                     image_mapping := image_data }

/-- `MedicalSearchEngine.save_indexes` (lines 208-220): when an index
object is present, write the index file and dump the matching mapping
file; files of an absent index are left untouched. -/
def save_indexes (e : Engine) (c : CacheDir) : CacheDir :=
  let c1 := match e.text_index with
    | some ti => { c with text_index_file := some ti,
                          text_mapping_file := some e.text_mapping }
    | none => c
  match e.image_index with
  | some ii => { c1 with image_index_file := some ii,
                         image_mapping_file := some e.image_mapping }
  | none => c1

/-- The image half of `load_indexes`: if `image_index.faiss` exists,
read it, then open `image_mapping.json`; a missing mapping file raises,
which the enclosing `try` catches after the index field was already
assigned (partial mutation is kept). -/
def load_image_part (e : Engine) (c : CacheDir) : Engine :=
  match c.image_index_file with
  | none => e
  | some ii =>
      let e1 := { e with image_index := some ii }
      match c.image_mapping_file with
      | none => e1
      | some im => { e1 with image_mapping := im }

/-- `MedicalSearchEngine.load_indexes` (lines 222-240): load the text
pair, then the image pair, inside one `try`; an exception while loading
the text mapping skips the image part entirely and keeps whatever was
already assigned. -/
def load_indexes (e : Engine) (c : CacheDir) : Engine :=
  match c.text_index_file with
  | none => load_image_part e c
  | some ti =>
      let e1 := { e with text_index := some ti }
      match c.text_mapping_file with
      | none => e1
      | some tm => load_image_part { e1 with text_mapping := tm } c

/-- The configured CSV dataset names, in the insertion order of
`dataset_configs['csv_datasets']` (`loadData.py` lines 62-78). -/
def csvDatasetNames : List String := ["breast-cancer", "diabetes", "stroke"]

/-- Filesystem view of the CSV datasets directory: for a dataset name,
`none` means the directory does not exist; `some (.error msg)` means
reading/processing its CSV files raises (caught by the per-dataset
`except`); `some (.ok items)` is the list of processed row items.  The
pandas row processing itself (lines 144-182) is an external
reader+formatter from this model's point of view. -/
def CsvFS := String → Option (Except String (List DatasetItem))

/-- One iteration of the dataset loop of `load_csv_datasets`: skip a
missing directory, swallow (log) a raised exception, append the
processed rows otherwise. -/
def csvStep (fs : CsvFS) (acc : List DatasetItem) (name : String) : List DatasetItem :=
  match fs name with
  | none => acc
  | some (.error _) => acc
  | some (.ok items) => acc ++ items

/-- `MedicalDatasetLoader.load_csv_datasets` (lines 128-191): iterate
the configured datasets; a missing directory is logged and skipped
(`continue`); an exception while processing one dataset is caught and
logged, losing only that dataset's rows; the accumulated list is stored
in `loaded_data['csv']` and returned. -/
def load_csv_datasets (fs : CsvFS) (e : Engine) : List DatasetItem × Engine :=
  let csv_data := csvDatasetNames.foldl (csvStep fs) []
  (csv_data, { e with loaded_csv := csv_data })

/-- Python list read `mapping[i]` for a non-negative index: raises
`IndexError` when out of range. -/
def getItemE (mapping : List DatasetItem) (i : Nat) : Except String DatasetItem :=
  match mapping[i]? with
  | some item => .ok item
  | none => .error "IndexError: list index out of range"

/-- One iteration of the exception-instrumented search loop:
`if idx < len(mapping): results.append(build(mapping[idx]))`, with the
list read performed through `getItemE`. -/
def stepE (mapping : List DatasetItem) (search_type : String)
    (results : List SearchResult) (h : ℚ × Nat) : Except String (List SearchResult) :=
  if h.2 < mapping.length then
    match getItemE mapping h.2 with
    | .ok item => Except.ok (results ++ [mkResult search_type item h.1])
    | .error msg => Except.error msg
  else Except.ok results

/-- Exception-instrumented `search_images`, mirroring `search_textE`. -/
def search_imagesE (m : Models) (e : Engine) (query : String) (top_k : Nat) :
    Except String (List SearchResult) :=
  match e.image_index, m.image_model with
  | some index, some im =>
      (faissSearch index (m.normalize (im.encode_text query)) top_k).foldlM
        (stepE e.image_mapping "image") []
  | _, _ => .ok []

/-- The largest finite single-precision float, exactly:
FLT_MAX = (2 - 2 ^ (-23)) * 2 ^ 127 = 2 ^ 128 - 2 ^ 104.  For
inner-product search FAISS fills the score slots of sentinel entries
with -FLT_MAX when `k` exceeds `ntotal`. -/
def fltMax : ℚ := 2 ^ 128 - 2 ^ 104

/-- Faithful model of `faiss.IndexFlatIP.search(q, k)` including the
sentinel entries: the first `min k ntotal` result slots hold the
genuine hits of `faissSearch`; the remaining `k - ntotal` slots hold
`(-FLT_MAX, -1)`.  Positions are integers because the sentinel label
is `-1`. -/
def faissSearchP (index : List Vec) (q : Vec) (k : Nat) : List (ℚ × Int) :=
  (faissSearch index q k).map (fun h => (h.1, (h.2 : Int)))
    ++ List.replicate (k - index.length) (-fltMax, -1)

/-- Python's `mapping[idx]` for an integer index: a negative index
reads from the end (`len + idx`); an index that is still out of range
raises `IndexError`. -/
def pyGetItem (mapping : List DatasetItem) (idx : Int) : Except String DatasetItem :=
  let j : Int := if idx < 0 then idx + mapping.length else idx
  if 0 ≤ j then
    match mapping[j.toNat]? with
    | some item => .ok item
    | none => .error "IndexError: list index out of range"
  else .error "IndexError: list index out of range"

/-- One iteration of the search loop over the sentinel-carrying hit
list: the source's guard `idx < len(mapping)` is an integer comparison
— which the sentinel label `-1` always passes — and the subsequent
`mapping[idx]` is a Python read that negative-indexes from the end. -/
def stepP (mapping : List DatasetItem) (search_type : String)
    (results : List SearchResult) (h : ℚ × Int) : Except String (List SearchResult) :=
  if h.2 < (mapping.length : Int) then
    match pyGetItem mapping h.2 with
    | .ok item => Except.ok (results ++ [mkResult search_type item h.1])
    | .error msg => Except.error msg
  else Except.ok results

/-- `MedicalSearchEngine.search_images` over the faithful hit list
`faissSearchP` (`search_text` behaves identically): for
`top_k > ntotal` each sentinel `(-FLT_MAX, -1)` entry passes the
`idx < len(mapping)` guard and `mapping[-1]` appends a record of the
LAST mapping item with score `-FLT_MAX` (or raises `IndexError` when
the mapping is empty).  For `top_k ≤ ntotal` it coincides with
`search_images`. -/
def search_imagesP (m : Models) (e : Engine) (query : String) (top_k : Nat) :
    Except String (List SearchResult) :=
  match e.image_index, m.image_model with
  | some index, some im =>
      (faissSearchP index (m.normalize (im.encode_text query)) top_k).foldlM
        (stepP e.image_mapping "image") []
  | _, _ => .ok []

/-- Items of one configured dataset as the loader's fold sees them:
missing directory or caught exception contribute nothing. -/
def okItems (fs : CsvFS) (name : String) : List DatasetItem :=
  match fs name with
  | some (.ok items) => items
  | _ => []

/-! Concrete demonstration values used to instantiate the theorems. -/

/-- A `Models` value in which no ML model is initialized. -/
def noModels : Models := { text_model := none, image_model := none, normalize := id }

/-- A representative CSV row item. -/
def itemA : DatasetItem :=
  { id := "breast-cancer_0", dataset := "breast-cancer", type := "csv",
    content := "Medical data from breast-cancer: diagnosis: M",
    snippet := "diagnosis: M", metadata := [("id", "842302")],
    file_path := "datasets/breast-cancer/data.csv" }

/-- A representative image item. -/
def itemB : DatasetItem :=
  { id := "brain-scans_no_tumor_img1", dataset := "brain-scans", type := "image",
    content := "Medical image from brain-scans: no_tumor - img1.jpg",
    snippet := "no_tumor - img1.jpg", metadata := [("category", "no_tumor")],
    file_path := "datasets/brain-scans/no_tumor/img1.jpg" }

/-- An image item whose stored vector is nonzero in the demos. -/
def itemV : DatasetItem :=
  { id := "covid-xray_NORMAL_x1", dataset := "covid-xray", type := "image",
    content := "Medical image from covid-xray: NORMAL - x1.png",
    snippet := "NORMAL - x1.png", metadata := [("category", "NORMAL")],
    file_path := "datasets/covid-xray/NORMAL/x1.png" }

/-- An image item standing for a failed decode (its stored vector is
the zero vector in the demos). -/
def itemZ : DatasetItem :=
  { id := "covid-xray_COVID_broken", dataset := "covid-xray", type := "image",
    content := "Medical image from covid-xray: COVID - broken.png",
    snippet := "COVID - broken.png", metadata := [("category", "COVID")],
    file_path := "datasets/covid-xray/COVID/broken.png" }

/-- Demo models: constant one-dimensional embeddings, identity
normalization, every image decodable. -/
def demoModels : Models :=
  { text_model := some (fun _ => [1]),
    image_model := some { encode_text := fun _ => [1], encode_image := fun _ => some [2] },
    normalize := id }

/-- Demo engine before any index is built. -/
def demoEngine : Engine :=
  { loaded_csv := [itemA], loaded_text := [], loaded_image := [itemB],
    text_index := none, image_index := none, text_mapping := [], image_mapping := [] }

/-- `demoEngine` after `build_text_index demoModels`. -/
def demoEngine1 : Engine :=
  { demoEngine with text_index := some [[1]], text_mapping := [itemA] }

/-- `demoEngine1` after `build_image_index demoModels`. -/
def demoEngine2 : Engine :=
  { demoEngine1 with image_index := some [[2]], image_mapping := [itemB] }

/-- An empty cache directory. -/
def emptyCache : CacheDir :=
  { text_index_file := none, text_mapping_file := none,
    image_index_file := none, image_mapping_file := none }

/-- Demo filesystem for the loader: `breast-cancer` present and well
formed, `diabetes` directory missing, `stroke` present but its CSV
processing raises. -/
def demoFS : CsvFS := fun name =>
  if name = "breast-cancer" then some (.ok [itemA])
  else if name = "diabetes" then none
  else some (.error "pandas.errors.ParserError: Error tokenizing data")

/-- Models whose CLIP text encoder embeds every query to `[-1]`:
against a stored vector `[1]` the inner product is negative. -/
def negModels : Models :=
  { text_model := none,
    image_model := some { encode_text := fun _ => [-1], encode_image := fun _ => none },
    normalize := id }

/-- Models whose CLIP text encoder embeds every query to `[1]`. -/
def posModels : Models :=
  { text_model := none,
    image_model := some { encode_text := fun _ => [1], encode_image := fun _ => none },
    normalize := id }

/-- Engine whose image index stores a normal vector at position 0 and
the all-zero fallback vector at position 1. -/
def zeroEngine : Engine :=
  { loaded_csv := [], loaded_text := [], loaded_image := [],
    text_index := none, image_index := some [[1], zeroVec 1],
    text_mapping := [], image_mapping := [itemV, itemZ] }

/-- Like `zeroEngine` but with stored vector `[2]` at position 0, so
every non-zero stored vector scores positively against `posModels`. -/
def zeroEngine2 : Engine :=
  { zeroEngine with image_index := some [[2], zeroVec 1] }

/-- Engine whose image index stores the all-zero fallback vector FIRST
and a normal vector LAST: the sentinel entries produced for
`top_k > ntotal` then duplicate the last (non-zero) mapping item. -/
def padEngine : Engine :=
  { zeroEngine with image_index := some [zeroVec 1, [2]],
                    image_mapping := [itemZ, itemV] }

/-! Embedding of `minimal_search_engine.py`. -/

/-- Python `str.lower()`, character-wise (the inputs of interest are
ASCII; this is `String.toLower`, i.e. `map Char.toLower`, written so
that it evaluates by kernel reduction). -/
def strToLower (s : String) : String := String.mk (s.data.map Char.toLower)

/-- A word character for the regex `\b\w+\b`: alphanumeric or
underscore (the inputs of interest are ASCII). -/
def isWordChar (c : Char) : Bool := c.isAlphanum || c = '_'

/-- Tail worker for `runsBy`: `cur` holds the reversed characters of
the run currently being scanned. -/
def runsByAux (p : Char → Bool) : List Char → List Char → List String
  | [], cur => if cur.isEmpty then [] else [String.mk cur.reverse]
  | c :: cs, cur =>
    if p c then runsByAux p cs (c :: cur)
    else if cur.isEmpty then runsByAux p cs []
    else String.mk cur.reverse :: runsByAux p cs []

/-- Maximal runs of characters satisfying `p`, in order.
`re.findall` of `\b\w+\b` is `runsBy isWordChar`; Python `str.split()`
is `runsBy (not whitespace)`. -/
def runsBy (p : Char → Bool) (l : List Char) : List String := runsByAux p l []

/-- First index at which `pat` occurs in the remaining list, Python
`str.find` (with `none` for Python's `-1`). -/
def findSub (pat : List Char) : List Char → Option Nat
  | [] => if pat.isPrefixOf ([] : List Char) then some 0 else none
  | c :: t =>
    if pat.isPrefixOf (c :: t) then some 0
    else (findSub pat t).map (fun n => n + 1)

/-- Python's `pat in hay` substring test. -/
def containsStr (hay pat : String) : Bool := (findSub pat.data hay.data).isSome

/-- One record of the hard-coded `sample_data` list in
`fallback_search`. -/
structure SampleItem where
  dataset : String
  type : String
  content : String
  snippet : String
  source : String
  keywords : List String
  deriving DecidableEq

/-- A result record built by `fallback_search`. -/
structure FallbackResult where
  dataset : String
  type : String
  content : String
  snippet : String
  source : String
  relevance_score : ℚ
  search_method : String
  deriving DecidableEq

/-- The eight sample records of `fallback_search`
(`minimal_search_engine.py` lines 20-85), transcribed verbatim. -/
def sample_data : List SampleItem :=
  [ { dataset := "medical-knowledge", type := "text",
      content := "Chest pain can be caused by heart disease, acid reflux, or muscle strain",
      snippet := "Chest pain evaluation should consider cardiac, gastrointestinal, and musculoskeletal causes",
      source := "medical_guidelines.txt",
      keywords := ["chest", "pain", "heart", "cardiac", "reflux", "muscle"] },
    { dataset := "symptom-checker", type := "text",
      content := "Fever, cough, and shortness of breath may indicate respiratory infection",
      snippet := "Respiratory symptoms including fever, cough, dyspnea require medical evaluation",
      source := "respiratory_symptoms.txt",
      keywords := ["fever", "cough", "breath", "respiratory", "infection", "pneumonia"] },
    { dataset := "diabetes-info", type := "text",
      content := "Diabetes symptoms include excessive thirst, frequent urination, and blurred vision",
      snippet := "Classic diabetes symptoms: polydipsia, polyuria, blurred vision, fatigue",
      source := "diabetes_symptoms.txt",
      keywords := ["diabetes", "thirst", "urination", "vision", "blood", "sugar", "glucose"] },
    { dataset := "cardiology", type := "text",
      content := "Heart palpitations can be caused by anxiety, caffeine, or arrhythmia",
      snippet := "Palpitations may result from anxiety, stimulants, or cardiac arrhythmias",
      source := "heart_conditions.txt",
      keywords := ["heart", "palpitations", "anxiety", "caffeine", "arrhythmia", "rhythm"] },
    { dataset := "neurology", type := "text",
      content := "Headaches can be tension-type, migraine, or secondary to other conditions",
      snippet := "Headache evaluation: tension-type, migraine, cluster, secondary causes",
      source := "headache_types.txt",
      keywords := ["headache", "migraine", "tension", "pain", "head", "neurological"] },
    { dataset := "dermatology", type := "text",
      content := "Skin rashes may indicate allergic reactions, infections, or autoimmune conditions",
      snippet := "Skin rash differential: allergic, infectious, autoimmune, drug-related",
      source := "skin_conditions.txt",
      keywords := ["skin", "rash", "allergy", "infection", "dermatitis", "eczema"] },
    { dataset := "gastroenterology", type := "text",
      content := "Abdominal pain location and character help determine underlying cause",
      snippet := "Abdominal pain assessment by location, quality, timing, associated symptoms",
      source := "abdominal_pain.txt",
      keywords := ["abdominal", "pain", "stomach", "nausea", "digestive", "gastric"] },
    { dataset := "psychiatry", type := "text",
      content := "Depression symptoms include persistent sadness, loss of interest, and fatigue",
      snippet := "Major depression: persistent low mood, anhedonia, fatigue, sleep changes",
      source := "mental_health.txt",
      keywords := ["depression", "anxiety", "mood", "mental", "sadness", "stress"] } ]

/-- The per-item score of `fallback_search`: +2 for each query word
that is exactly one of the item's keywords, else +1 if it is a
substring of the lowercased content, else 0; then, when positive, a
bonus of 0.5 per content-matching word if more than one word matches
the content. -/
def itemScore (query_words : List String) (item : SampleItem) : ℚ :=
  let content_lower := strToLower item.content
  let base := (query_words.map (fun w =>
    if item.keywords.contains w then (2 : ℚ)
    else if containsStr content_lower w then 1 else 0)).sum
  if 0 < base then
    let word_matches := (query_words.filter (fun w => containsStr content_lower w)).length
    if 1 < word_matches then base + word_matches * (1 / 2) else base
  else base

/-- Comparator for fallback results: descending relevance score. -/
abbrev fbDesc : FallbackResult → FallbackResult → Prop :=
  byDescKey FallbackResult.relevance_score

/-- `fallback_search` (`minimal_search_engine.py` lines 13-128):
tokenize the lowercased query with `\b\w+\b`; return `[]` when no
words; score each sample item, keep those with positive score with
relevance `min(score/10, 1.0)`, sort by descending relevance (stable)
and return the first `top_k`. -/
def fallback_search (query : String) (top_k : Nat) : List FallbackResult :=
  let query_words := runsBy isWordChar (strToLower query).data
  if query_words.isEmpty then []
  else
    let scored_results := sample_data.filterMap (fun item =>
      let score := itemScore query_words item
      if 0 < score then
        some { dataset := item.dataset, type := item.type, content := item.content,
               snippet := item.snippet, source := item.source,
               relevance_score := min (score / 10) 1,
               search_method := "keyword_fallback" }
      else none)
    ((List.insertionSort fbDesc scored_results).take top_k)

/-- Python slice `l[start:stop]` for `0 ≤ start ≤ stop` (both already
clamped by the caller). -/
def pySlice (l : List Char) (start stop : Nat) : List Char := (l.take stop).drop start

/-- Python `str.strip()`: drop whitespace from both ends. -/
def pyStrip (l : List Char) : List Char :=
  (l.dropWhile Char.isWhitespace).rdropWhile Char.isWhitespace

/-- The loop of `extract_snippet`: first query word found in the
lowercased content, with its position. -/
def firstFound (hay : List Char) : List String → Option Nat
  | [] => none
  | w :: ws =>
    match findSub w.data hay with
    | some pos => some pos
    | none => firstFound hay ws

/-- `extract_snippet` (`minimal_search_engine.py` lines 177-200): find
the first query word in the lowercased content; slice 100 characters
each side of the match out of the original content, strip it, and mark
truncation with a leading/trailing `"..."`; when no word matches,
return the first 200 characters (with `"..."` iff the content is
longer). -/
def extract_snippet (content query : String) : String :=
  let content_lower := (strToLower content).data
  let query_words := runsBy (fun c => !c.isWhitespace) query.data
  match firstFound content_lower query_words with
  | some pos =>
      let start := pos - 100
      let stop := min content.data.length (pos + 100)
      let snippet := pyStrip (pySlice content.data start stop)
      let snippet := if 0 < start then "...".data ++ snippet else snippet
      let snippet := if stop < content.data.length then snippet ++ "...".data else snippet
      String.mk snippet
  | none =>
      if 200 < content.data.length then String.mk (content.data.take 200 ++ "...".data)
      else content

/-! ### Helper lemmas -/

/-- `appendOpt` on a present element. -/
theorem appendOpt_some {α : Type} (r : List α) (a : α) :
    appendOpt r (some a) = r ++ [a] := rfl

/-- `appendOpt` on an absent element. -/
theorem appendOpt_none {α : Type} (r : List α) : appendOpt r none = r := rfl

/-- The append-an-option fold used by the search loops equals
`filterMap`. -/
theorem foldl_opt_append {α β : Type} (f : β → Option α) :
    ∀ (l : List β) (acc : List α),
      l.foldl (fun r b => appendOpt r (f b)) acc = acc ++ l.filterMap f := by
  intro l
  induction l with
  | nil => intro acc; simp
  | cons b t ih =>
      intro acc
      cases hfb : f b with
      | none =>
          simp only [List.foldl_cons, List.filterMap_cons, hfb, appendOpt_none]
          exact ih acc
      | some a =>
          simp only [List.foldl_cons, List.filterMap_cons, hfb, appendOpt_some]
          rw [ih (acc ++ [a])]
          simp

/-- `search_text` in `filterMap` form, when index and model exist. -/
theorem search_text_eq {m : Models} {e : Engine} {index : List Vec}
    {encode : String → Vec} (hti : e.text_index = some index)
    (htm : m.text_model = some encode) (query : String) (top_k : Nat) :
    search_text m e query top_k
      = (faissSearch index (m.normalize (encode query)) top_k).filterMap
          (lookupHit e.text_mapping "text") := by
  simp only [search_text, hti, htm, foldl_opt_append, List.nil_append]

/-- `search_images` in `filterMap` form, when index and model exist. -/
theorem search_images_eq {m : Models} {e : Engine} {index : List Vec}
    {im : ImageModel} (hti : e.image_index = some index)
    (htm : m.image_model = some im) (query : String) (top_k : Nat) :
    search_images m e query top_k
      = (faissSearch index (m.normalize (im.encode_text query)) top_k).filterMap
          (lookupHit e.image_mapping "image") := by
  simp only [search_images, hti, htm, foldl_opt_append, List.nil_append]

/-- The stable sort by a descending rational key is pairwise
descending. -/
theorem pairwise_insertionSort_key {α : Type} (key : α → ℚ) (l : List α) :
    (List.insertionSort (byDescKey key) l).Pairwise (fun a b => key b ≤ key a) :=
  List.sorted_insertionSort (byDescKey key) l

/-- Every hit returned by the FAISS model is the inner-product score of
a stored vector, tagged with its insertion position. -/
theorem mem_faissSearch {index : List Vec} {q : Vec} {k : Nat} {s : ℚ} {i : Nat}
    (h : (s, i) ∈ faissSearch index q k) :
    ∃ hi : i < index.length, s = ipScore q (index.get ⟨i, hi⟩) := by
  have h1 : (s, i) ∈ index.enum.map (fun x => (ipScore q x.2, x.1)) :=
    (List.mem_insertionSort scoreDesc).1 (List.mem_of_mem_take h)
  obtain ⟨x, hx, hpx⟩ := List.mem_map.1 h1
  obtain ⟨j, v⟩ := x
  obtain ⟨hs, hi⟩ := Prod.mk.injEq .. |>.mp hpx
  subst hs
  subst hi
  have h2 : index[j]? = some v := List.mem_enum_iff_getElem?.1 hx
  obtain ⟨hlt, hv⟩ := List.getElem?_eq_some_iff.1 h2
  exact ⟨hlt, by simp [List.get_eq_getElem, hv]⟩

/-- The FAISS hit list is sorted by descending score. -/
theorem faissSearch_sorted (index : List Vec) (q : Vec) (k : Nat) :
    (faissSearch index q k).Pairwise (fun a b => b.1 ≤ a.1) := by
  have h := pairwise_insertionSort_key Prod.fst
    (index.enum.map (fun x => (ipScore q x.2, x.1)))
  exact h.sublist (List.take_sublist _ _)

/-- Inverting `lookupHit`. -/
theorem lookupHit_eq_some {mapping : List DatasetItem} {st : String}
    {h : ℚ × Nat} {r : SearchResult} (he : lookupHit mapping st h = some r) :
    ∃ hi : h.2 < mapping.length, r = mkResult st (mapping.get ⟨h.2, hi⟩) h.1 := by
  unfold lookupHit at he
  split at he
  · exact ⟨by assumption, (Option.some_inj.1 he).symm⟩
  · exact absurd he (by simp)

/-- Structure of `search_images` results: each comes from a stored
vector/mapping position pair. -/
theorem mem_search_images {m : Models} {e : Engine} {query : String}
    {top_k : Nat} {r : SearchResult} (h : r ∈ search_images m e query top_k) :
    ∃ index im, e.image_index = some index ∧ m.image_model = some im ∧
      ∃ i, ∃ hi : i < e.image_mapping.length, ∃ hv : i < index.length,
        r = mkResult "image" (e.image_mapping.get ⟨i, hi⟩)
              (ipScore (m.normalize (im.encode_text query)) (index.get ⟨i, hv⟩)) := by
  rcases hti : e.image_index with _ | index
  · rw [search_images] at h
    simp [hti] at h
  rcases htm : m.image_model with _ | im
  · rw [search_images] at h
    simp [hti, htm] at h
  rw [search_images_eq hti htm query top_k] at h
  obtain ⟨p, hp, hlk⟩ := List.mem_filterMap.1 h
  obtain ⟨s, i⟩ := p
  obtain ⟨hi, hr⟩ := lookupHit_eq_some hlk
  obtain ⟨hv, hs⟩ := mem_faissSearch hp
  exact ⟨index, im, rfl, rfl, i, hi, hv, by rw [hr, hs]⟩

/-- Structure of `search_text` results. -/
theorem mem_search_text {m : Models} {e : Engine} {query : String}
    {top_k : Nat} {r : SearchResult} (h : r ∈ search_text m e query top_k) :
    ∃ item ∈ e.text_mapping, ∃ s : ℚ, r = mkResult "text" item s := by
  rcases hti : e.text_index with _ | index
  · rw [search_text] at h
    simp [hti] at h
  rcases htm : m.text_model with _ | encode
  · rw [search_text] at h
    simp [hti, htm] at h
  rw [search_text_eq hti htm query top_k] at h
  obtain ⟨p, hp, hlk⟩ := List.mem_filterMap.1 h
  obtain ⟨hi, hr⟩ := lookupHit_eq_some hlk
  exact ⟨e.text_mapping.get ⟨p.2, hi⟩, List.get_mem _ _ _, p.1, hr⟩

/-- Pull a common second component out of an `if`. -/
theorem ite_pair {α β : Type} (c : Prop) [Decidable c] (a a' : α) (b : β) :
    (if c then (a, b) else (a', b)) = (if c then a else a', b) := by
  split <;> rfl

/-- Distribute an `if` over the appended suffix. -/
theorem ite_append_right {α : Type} (c : Prop) [Decidable c] (a x : List α) :
    (if c then a ++ x else a) = a ++ (if c then x else []) := by
  split <;> simp

/-- `search_st` computes the same results as `search` and returns the
engine unchanged. -/
theorem search_st_eq (m : Models) (e : Engine) (query : String) (top_k : Nat)
    (search_types : Option (List String)) :
    search_st m e query top_k search_types
      = (search m e query top_k search_types, e) := by
  simp only [search_st, search, search_text_st, search_images_st, ite_pair,
    ite_append_right]

/-- C8: querying is stateless request/response — `search`,
`search_text` and `search_images` assign no engine field, so the engine
state (indexes, mappings and the loader's loaded data) after a call is
exactly the state before it, and the returned value is a pure function
of that state. -/
theorem C8_search_is_stateless (m : Models) (e : Engine) (query : String)
    (top_k : Nat) (search_types : Option (List String)) :
    (search_st m e query top_k search_types).2 = e ∧
    (search_st m e query top_k search_types).1 = search m e query top_k search_types ∧
    (search_text_st m e query top_k).2 = e ∧
    (search_images_st m e query top_k).2 = e := by
  rw [search_st_eq]
  exact ⟨rfl, rfl, rfl, rfl⟩

/-- `search_text` reads only `text_index` and `text_mapping` from the
engine. -/
theorem search_text_congr (m : Models) (e1 e2 : Engine)
    (h1 : e1.text_index = e2.text_index) (h2 : e1.text_mapping = e2.text_mapping)
    (query : String) (top_k : Nat) :
    search_text m e1 query top_k = search_text m e2 query top_k := by
  simp only [search_text, h1, h2]

/-- `search_images` reads only `image_index` and `image_mapping`. -/
theorem search_images_congr (m : Models) (e1 e2 : Engine)
    (h1 : e1.image_index = e2.image_index) (h2 : e1.image_mapping = e2.image_mapping)
    (query : String) (top_k : Nat) :
    search_images m e1 query top_k = search_images m e2 query top_k := by
  simp only [search_images, h1, h2]

/-- `search` reads only the four index/mapping fields. -/
theorem search_congr (m : Models) (e1 e2 : Engine)
    (h1 : e1.text_index = e2.text_index) (h2 : e1.text_mapping = e2.text_mapping)
    (h3 : e1.image_index = e2.image_index) (h4 : e1.image_mapping = e2.image_mapping)
    (query : String) (top_k : Nat) (search_types : Option (List String)) :
    search m e1 query top_k search_types = search m e2 query top_k search_types := by
  simp only [search, search_text_congr m e1 e2 h1 h2 query top_k,
    search_images_congr m e1 e2 h3 h4 query top_k]

/-- After saving both present indexes, the four cache files hold
exactly the engine's pairs. -/
theorem save_indexes_eq {e : Engine} {c : CacheDir} {ti ii : List Vec}
    (ht : e.text_index = some ti) (hi : e.image_index = some ii) :
    save_indexes e c
      = { text_index_file := some ti, text_mapping_file := some e.text_mapping,
          image_index_file := some ii, image_mapping_file := some e.image_mapping } := by
  simp [save_indexes, ht, hi]

/-- Loading a fully populated cache overwrites all four fields. -/
theorem load_indexes_full (e0 : Engine) (ti ii : List Vec)
    (tm im : List DatasetItem) :
    load_indexes e0
        { text_index_file := some ti, text_mapping_file := some tm,
          image_index_file := some ii, image_mapping_file := some im }
      = { e0 with text_index := some ti, text_mapping := tm,
                  image_index := some ii, image_mapping := im } := by
  simp [load_indexes, load_image_part]

/-- C2: round-trip persistence — for an engine whose text and image
indexes are both built, `save_indexes` followed by `load_indexes` (into
any engine, over any pre-existing cache) reproduces the exact
index/mapping pairs, and therefore `search`, `search_text` and
`search_images` return exactly the same ranked results for every fixed
query and `top_k` as they did before saving. -/
theorem C2_save_load_roundtrip (m : Models) (e e0 : Engine) (c : CacheDir)
    (ti ii : List Vec) (ht : e.text_index = some ti) (hi : e.image_index = some ii) :
    (load_indexes e0 (save_indexes e c)).text_index = e.text_index ∧
    (load_indexes e0 (save_indexes e c)).text_mapping = e.text_mapping ∧
    (load_indexes e0 (save_indexes e c)).image_index = e.image_index ∧
    (load_indexes e0 (save_indexes e c)).image_mapping = e.image_mapping ∧
    ∀ (query : String) (top_k : Nat) (search_types : Option (List String)),
      search m (load_indexes e0 (save_indexes e c)) query top_k search_types
        = search m e query top_k search_types ∧
      search_text m (load_indexes e0 (save_indexes e c)) query top_k
        = search_text m e query top_k ∧
      search_images m (load_indexes e0 (save_indexes e c)) query top_k
        = search_images m e query top_k := by
  rw [save_indexes_eq ht hi, load_indexes_full]
  refine ⟨by simp [ht], by simp, by simp [hi], by simp, ?_⟩
  intro query top_k search_types
  refine ⟨search_congr m _ e (by simp [ht]) (by simp) (by simp [hi]) (by simp)
      query top_k search_types,
    search_text_congr m _ e (by simp [ht]) (by simp) query top_k,
    search_images_congr m _ e (by simp [hi]) (by simp) query top_k⟩

/-- C2 witness: the round trip at a concrete two-item engine. -/
theorem C2_save_load_roundtrip_witness :
    demoEngine2.text_index = some [[1]] ∧ demoEngine2.image_index = some [[2]] ∧
    ((load_indexes demoEngine (save_indexes demoEngine2 emptyCache)).text_index
        = demoEngine2.text_index ∧
      (load_indexes demoEngine (save_indexes demoEngine2 emptyCache)).text_mapping
        = demoEngine2.text_mapping ∧
      (load_indexes demoEngine (save_indexes demoEngine2 emptyCache)).image_index
        = demoEngine2.image_index ∧
      (load_indexes demoEngine (save_indexes demoEngine2 emptyCache)).image_mapping
        = demoEngine2.image_mapping ∧
      ∀ (query : String) (top_k : Nat) (search_types : Option (List String)),
        search demoModels (load_indexes demoEngine (save_indexes demoEngine2 emptyCache))
            query top_k search_types
          = search demoModels demoEngine2 query top_k search_types ∧
        search_text demoModels (load_indexes demoEngine (save_indexes demoEngine2 emptyCache))
            query top_k
          = search_text demoModels demoEngine2 query top_k ∧
        search_images demoModels (load_indexes demoEngine (save_indexes demoEngine2 emptyCache))
            query top_k
          = search_images demoModels demoEngine2 query top_k) :=
  ⟨rfl, rfl,
    C2_save_load_roundtrip demoModels demoEngine2 demoEngine emptyCache [[1]] [[2]] rfl rfl⟩

/-- C7: `generate_image_embeddings` (with an initialized image model)
returns exactly one embedding per input item, in input order, and an
item whose image cannot be decoded contributes the 512-dimensional zero
vector rather than failing the batch. -/
theorem C7_image_embeddings_one_per_item (m : Models) (im : ImageModel)
    (data_items : List DatasetItem) (him : m.image_model = some im) :
    ∃ embs, generate_image_embeddings m data_items = .ok embs ∧
      embs.length = data_items.length ∧
      (∀ i : Nat, embs[i]?
        = (data_items[i]?).map (fun item => (im.encode_image item).getD (zeroVec 512))) ∧
      (∀ (i : Nat) (item : DatasetItem), data_items[i]? = some item →
        im.encode_image item = none → embs[i]? = some (zeroVec 512)) ∧
      (zeroVec 512).length = 512 := by
  refine ⟨data_items.map (fun item => (im.encode_image item).getD (zeroVec 512)),
    by simp [generate_image_embeddings, him], by simp, by simp, ?_,
    by simp only [zeroVec, List.length_replicate]⟩
  intro i item h hnone
  simp [h, hnone]

/-- C7 witness: a one-item batch whose image fails to decode yields the
single 512-dimensional zero embedding. -/
theorem C7_image_embeddings_one_per_item_witness :
    negModels.image_model
        = some { encode_text := fun _ => [-1], encode_image := fun _ => none } ∧
    ∃ embs, generate_image_embeddings negModels [itemZ] = .ok embs ∧
      embs.length = [itemZ].length ∧
      (∀ i : Nat, embs[i]?
        = ([itemZ][i]?).map
            (fun item =>
              (ImageModel.encode_image { encode_text := fun _ => [-1], encode_image := fun _ => none } item).getD
                (zeroVec 512))) ∧
      (∀ (i : Nat) (item : DatasetItem), [itemZ][i]? = some item →
        ImageModel.encode_image { encode_text := fun _ => [-1], encode_image := fun _ => none } item = none →
        embs[i]? = some (zeroVec 512)) ∧
      (zeroVec 512).length = 512 :=
  ⟨rfl, C7_image_embeddings_one_per_item negModels
    { encode_text := fun _ => [-1], encode_image := fun _ => none } [itemZ] rfl⟩

/-- C4 counterexample: the claim says every internal failure at every
pipeline stage is caught and never propagates, but
`generate_text_embeddings` contains no `try`/`except` at all and itself
raises `RuntimeError` when the text model is not initialized; the error
propagates to the caller. -/
theorem C4_counterexample :
    generate_text_embeddings noModels [itemA]
      = Except.error "Text model not initialized. Call initialize_models() first." := rfl

/-- The dataset fold of `load_csv_datasets` accumulates exactly the
items of the present, successfully processed datasets, in configured
order. -/
theorem csv_foldl_eq (fs : CsvFS) :
    ∀ (names : List String) (acc : List DatasetItem),
      names.foldl (csvStep fs) acc = acc ++ (names.map (okItems fs)).flatten := by
  intro names
  induction names with
  | nil => intro acc; simp
  | cons n t ih =>
      intro acc
      rcases hn : fs n with _ | ex
      · simp [List.foldl_cons, csvStep, hn, okItems, ih]
      · rcases ex with msg | items <;>
          simp [List.foldl_cons, csvStep, hn, okItems, ih]

/-- C4 (amended): dataset loading is failure-tolerant — a missing
dataset directory is logged and skipped and `load_csv_datasets` returns
the items of the remaining datasets without raising (likewise a caught
per-dataset processing exception only drops that dataset's rows) — but
embedding generation is not exception-free: `generate_text_embeddings`
raises `RuntimeError` to its caller when the text model is not
initialized. -/
theorem C4_loader_skips_failures (fs : CsvFS) (e : Engine) (m : Models)
    (data_items : List DatasetItem) (hm : m.text_model = none) :
    (load_csv_datasets fs e).1 = (csvDatasetNames.map (okItems fs)).flatten ∧
    (load_csv_datasets fs e).2
      = { e with loaded_csv := (csvDatasetNames.map (okItems fs)).flatten } ∧
    generate_text_embeddings m data_items
      = Except.error "Text model not initialized. Call initialize_models() first." := by
  refine ⟨?_, ?_, by simp [generate_text_embeddings, hm]⟩
  · simp [load_csv_datasets, csv_foldl_eq]
  · simp [load_csv_datasets, csv_foldl_eq]

/-- C4 witness: a filesystem where `breast-cancer` loads, `diabetes` is
missing and `stroke` raises — exactly the breast-cancer rows survive. -/
theorem C4_loader_skips_failures_witness :
    noModels.text_model = none ∧
    (load_csv_datasets demoFS demoEngine).1 = (csvDatasetNames.map (okItems demoFS)).flatten ∧
    (load_csv_datasets demoFS demoEngine).2
      = { demoEngine with loaded_csv := (csvDatasetNames.map (okItems demoFS)).flatten } ∧
    generate_text_embeddings noModels [itemA]
      = Except.error "Text model not initialized. Call initialize_models() first." ∧
    (csvDatasetNames.map (okItems demoFS)).flatten = [itemA] :=
  ⟨rfl, (C4_loader_skips_failures demoFS demoEngine noModels [itemA] rfl).1,
    (C4_loader_skips_failures demoFS demoEngine noModels [itemA] rfl).2.1,
    (C4_loader_skips_failures demoFS demoEngine noModels [itemA] rfl).2.2, by decide⟩

/-- C5: `search` merges the per-modality result lists, sorts the merged
list by non-increasing relevance score, returns at most `top_k`
records, and every returned record carries the matched item's id,
dataset, type, content, snippet, metadata and file path together with
its relevance score field. -/
theorem C5_search_merge_sort_truncate (m : Models) (e : Engine) (query : String)
    (top_k : Nat) (search_types : Option (List String)) :
    (search m e query top_k search_types).length ≤ top_k ∧
    (search m e query top_k search_types).Pairwise
      (fun a b => b.relevance_score ≤ a.relevance_score) ∧
    ∀ r ∈ search m e query top_k search_types,
      (r ∈ search_text m e query top_k ∨ r ∈ search_images m e query top_k) ∧
      ∃ item, (item ∈ e.text_mapping ∨ item ∈ e.image_mapping) ∧
        r.id = item.id ∧ r.dataset = item.dataset ∧ r.type = item.type ∧
        r.content = item.content ∧ r.snippet = item.snippet ∧
        r.metadata = item.metadata ∧ r.file_path = item.file_path := by
  refine ⟨?_, ?_, ?_⟩
  · simp only [search]
    exact List.length_take_le _ _
  · simp only [search]
    exact (pairwise_insertionSort_key SearchResult.relevance_score _).sublist
      (List.take_sublist _ _)
  · intro r hr
    simp only [search, ite_append_right] at hr
    have hr1 := (List.mem_insertionSort resultDesc).1 (List.mem_of_mem_take hr)
    have hmem : r ∈ search_text m e query top_k ∨ r ∈ search_images m e query top_k := by
      rcases List.mem_append.1 hr1 with h | h
      · split at h
        · exact Or.inl h
        · exact absurd h (by simp)
      · split at h
        · exact Or.inr h
        · exact absurd h (by simp)
    refine ⟨hmem, ?_⟩
    rcases hmem with h | h
    · obtain ⟨item, hitem, sc, hr2⟩ := mem_search_text h
      subst hr2
      exact ⟨item, Or.inl hitem, rfl, rfl, rfl, rfl, rfl, rfl, rfl⟩
    · obtain ⟨index, im, _, _, i, hi2, hv, hr2⟩ := mem_search_images h
      subst hr2
      exact ⟨_, Or.inr (List.get_mem _ _ _), rfl, rfl, rfl, rfl, rfl, rfl, rfl⟩

/-- The exception-instrumented search loop never actually errors: the
`idx < len(mapping)` guard makes every performed list read in-range, so
the fold returns `.ok` of exactly what the pure loop computes. -/
theorem foldlM_stepE (mapping : List DatasetItem) (st : String) :
    ∀ (hits : List (ℚ × Nat)) (acc : List SearchResult),
      hits.foldlM (stepE mapping st) acc
        = Except.ok (hits.foldl (fun r h => appendOpt r (lookupHit mapping st h)) acc) := by
  intro hits
  induction hits with
  | nil => intro acc; rfl
  | cons h t ih =>
      intro acc
      rw [List.foldlM_cons, List.foldl_cons]
      by_cases hlt : h.2 < mapping.length
      · have hget : getItemE mapping h.2 = .ok (mapping.get ⟨h.2, hlt⟩) := by
          simp [getItemE, List.getElem?_eq_getElem hlt, List.get_eq_getElem]
        have hstep : stepE mapping st acc h
            = .ok (acc ++ [mkResult st (mapping.get ⟨h.2, hlt⟩) h.1]) := by
          simp [stepE, hlt, hget]
        have hlook : lookupHit mapping st h
            = some (mkResult st (mapping.get ⟨h.2, hlt⟩) h.1) := by
          simp [lookupHit, hlt]
        rw [hstep, hlook, appendOpt_some]
        exact ih _
      · have hstep : stepE mapping st acc h = .ok acc := by simp [stepE, hlt]
        have hlook : lookupHit mapping st h = none := by simp [lookupHit, hlt]
        rw [hstep, hlook, appendOpt_none]
        exact ih acc

/-- `search_imagesE` never raises and agrees with `search_images`. -/
theorem search_imagesE_ok (m : Models) (e : Engine) (query : String) (top_k : Nat) :
    search_imagesE m e query top_k = Except.ok (search_images m e query top_k) := by
  rcases hti : e.image_index with _ | index
  · simp [search_imagesE, search_images, hti]
  rcases htm : m.image_model with _ | im
  · simp [search_imagesE, search_images, hti, htm]
  simp only [search_imagesE, search_images, hti, htm]
  exact foldlM_stepE _ _ _ _

/-- `build_text_index` on nonempty data with an initialized model:
the new index stores the normalized embedding of each item of
`csv ++ text`, in order, and the mapping is that item list. -/
theorem build_text_index_eq {m : Models} {encode : String → Vec} (e : Engine)
    (hm : m.text_model = some encode) (hne : e.loaded_csv ++ e.loaded_text ≠ []) :
    build_text_index m e
      = .ok { e with
          text_index := some (((e.loaded_csv ++ e.loaded_text).map
            (fun item => encode item.content)).map m.normalize),
          text_mapping := e.loaded_csv ++ e.loaded_text } := by
  have hemp : (e.loaded_csv ++ e.loaded_text).isEmpty = false := by
    rcases hl : e.loaded_csv ++ e.loaded_text with _ | _
    · exact absurd hl hne
    · rfl
  simp [build_text_index, generate_text_embeddings, hm, hemp]

/-- `build_image_index` on nonempty data with an initialized model. -/
theorem build_image_index_eq {m : Models} {im : ImageModel} (e : Engine)
    (hm : m.image_model = some im) (hne : e.loaded_image ≠ []) :
    build_image_index m e
      = .ok { e with
          image_index := some ((e.loaded_image.map
            (fun item => (im.encode_image item).getD (zeroVec 512))).map m.normalize),
          image_mapping := e.loaded_image } := by
  have hemp : e.loaded_image.isEmpty = false := by
    rcases hl : e.loaded_image with _ | _
    · exact absurd hl hne
    · rfl
  simp [build_image_index, generate_image_embeddings, hm, hemp]

/-- C1: index/mapping alignment — after `build_text_index` and
`build_image_index` (on nonempty data with initialized models) each
index is length-aligned and insertion-ordered with its mapping: the
vector at position `i` is the (normalized) embedding of the item at
`mapping[i]`; and after `save_indexes` followed by `load_indexes` the
reloaded index/mapping pairs are exactly the built ones, so the same
alignment holds for them. -/
theorem C1_index_mapping_alignment (m : Models) (encode : String → Vec)
    (im : ImageModel) (e e1 e2 e0 : Engine) (c : CacheDir)
    (hm : m.text_model = some encode) (him : m.image_model = some im)
    (h1 : build_text_index m e = .ok e1) (h2 : build_image_index m e1 = .ok e2)
    (hne1 : e.loaded_csv ++ e.loaded_text ≠ []) (hne2 : e.loaded_image ≠ []) :
    (∃ tidx, e2.text_index = some tidx ∧
      tidx.length = e2.text_mapping.length ∧
      ∀ i : Nat, tidx[i]?
        = (e2.text_mapping[i]?).map (fun item => m.normalize (encode item.content))) ∧
    (∃ iidx, e2.image_index = some iidx ∧
      iidx.length = e2.image_mapping.length ∧
      ∀ i : Nat, iidx[i]?
        = (e2.image_mapping[i]?).map
            (fun item => m.normalize ((im.encode_image item).getD (zeroVec 512)))) ∧
    ((load_indexes e0 (save_indexes e2 c)).text_index = e2.text_index ∧
      (load_indexes e0 (save_indexes e2 c)).text_mapping = e2.text_mapping ∧
      (load_indexes e0 (save_indexes e2 c)).image_index = e2.image_index ∧
      (load_indexes e0 (save_indexes e2 c)).image_mapping = e2.image_mapping) := by
  rw [build_text_index_eq e hm hne1] at h1
  have he1 : e1 = { e with
      text_index := some (((e.loaded_csv ++ e.loaded_text).map
        (fun item => encode item.content)).map m.normalize),
      text_mapping := e.loaded_csv ++ e.loaded_text } :=
    (Except.ok.injEq _ _).mp h1.symm
  subst he1
  rw [build_image_index_eq _ him (by simpa using hne2)] at h2
  have he2 : e2 = { e with
      text_index := some (((e.loaded_csv ++ e.loaded_text).map
        (fun item => encode item.content)).map m.normalize),
      text_mapping := e.loaded_csv ++ e.loaded_text,
      image_index := some ((e.loaded_image.map
        (fun item => (im.encode_image item).getD (zeroVec 512))).map m.normalize),
      image_mapping := e.loaded_image } :=
    (Except.ok.injEq _ _).mp h2.symm
  subst he2
  refine ⟨⟨_, rfl, by simp, ?_⟩, ⟨_, rfl, by simp, ?_⟩, ?_⟩
  · intro i
    simp only [List.getElem?_map, Option.map_map]
    rfl
  · intro i
    simp only [List.getElem?_map, Option.map_map]
    rfl
  · rw [save_indexes_eq rfl rfl, load_indexes_full]
    exact ⟨rfl, rfl, rfl, rfl⟩

/-- C1 witness: alignment at a concrete one-item-per-modality engine. -/
theorem C1_index_mapping_alignment_witness :
    demoModels.text_model = some (fun _ => [1]) ∧
    demoModels.image_model
      = some { encode_text := fun _ => [1], encode_image := fun _ => some [2] } ∧
    build_text_index demoModels demoEngine = .ok demoEngine1 ∧
    build_image_index demoModels demoEngine1 = .ok demoEngine2 ∧
    ((∃ tidx, demoEngine2.text_index = some tidx ∧
      tidx.length = demoEngine2.text_mapping.length ∧
      ∀ i : Nat, tidx[i]?
        = (demoEngine2.text_mapping[i]?).map
            (fun item => demoModels.normalize ((fun _ => ([1] : Vec)) item.content))) ∧
    (∃ iidx, demoEngine2.image_index = some iidx ∧
      iidx.length = demoEngine2.image_mapping.length ∧
      ∀ i : Nat, iidx[i]?
        = (demoEngine2.image_mapping[i]?).map
            (fun item => demoModels.normalize
              ((ImageModel.encode_image
                  { encode_text := fun _ => [1], encode_image := fun _ => some [2] }
                  item).getD (zeroVec 512)))) ∧
    ((load_indexes demoEngine (save_indexes demoEngine2 emptyCache)).text_index
        = demoEngine2.text_index ∧
      (load_indexes demoEngine (save_indexes demoEngine2 emptyCache)).text_mapping
        = demoEngine2.text_mapping ∧
      (load_indexes demoEngine (save_indexes demoEngine2 emptyCache)).image_index
        = demoEngine2.image_index ∧
      (load_indexes demoEngine (save_indexes demoEngine2 emptyCache)).image_mapping
        = demoEngine2.image_mapping)) :=
  ⟨rfl, rfl, rfl, rfl,
    C1_index_mapping_alignment demoModels (fun _ => [1])
      { encode_text := fun _ => [1], encode_image := fun _ => some [2] }
      demoEngine demoEngine1 demoEngine2 demoEngine emptyCache
      rfl rfl rfl rfl (by decide) (by decide)⟩

/-- The inner product against a zero vector is zero. -/
theorem ipScore_zeroVec (q : Vec) : ∀ n : Nat, ipScore q (zeroVec n) = 0 := by
  induction q with
  | nil => intro n; simp [ipScore]
  | cons a t ih =>
      intro n
      cases n with
      | zero => simp [ipScore, zeroVec]
      | succ n2 =>
          simp only [ipScore, zeroVec, List.replicate, List.zipWith_cons_cons,
            List.sum_cons]
          have h := ih n2
          simp only [ipScore, zeroVec] at h
          rw [h]
          ring

/-- Collecting guarded hits preserves the descending-score order. -/
theorem filterMap_lookupHit_sorted {mapping : List DatasetItem} {st : String}
    {hits : List (ℚ × Nat)} (hs : hits.Pairwise (fun a b => b.1 ≤ a.1)) :
    (hits.filterMap (lookupHit mapping st)).Pairwise
      (fun a b => b.relevance_score ≤ a.relevance_score) := by
  refine hs.filterMap (lookupHit mapping st) ?_
  intro p p2 hpp x hx y hy
  obtain ⟨hi, hxe⟩ := lookupHit_eq_some hx
  obtain ⟨hi2, hye⟩ := lookupHit_eq_some hy
  subst hxe
  subst hye
  simpa [mkResult] using hpp

/-- Bind of a success over `Except`, for evaluating the faithful
search on concrete inputs. -/
theorem except_ok_bind {α β : Type} (a : α) (f : α → Except String β) :
    (Except.ok a >>= f : Except String β) = f a := rfl

/-- `pure` over `Except`. -/
theorem except_pure {α : Type} (a : α) :
    (pure a : Except String α) = Except.ok a := rfl

/-- Reading a non-negative Python index is the guarded Nat read. -/
theorem pyGetItem_ofNat (mapping : List DatasetItem) (i : Nat) :
    pyGetItem mapping (i : Int) = getItemE mapping i := by
  have h0 : ¬((i : Int) < 0) := by omega
  rcases hg : mapping[i]? with _ | item <;>
    simp [pyGetItem, getItemE, h0, hg]

/-- A cast genuine hit steps exactly like the Nat-indexed loop body. -/
theorem stepP_cast (mapping : List DatasetItem) (st : String)
    (acc : List SearchResult) (s : ℚ) (i : Nat) :
    stepP mapping st acc (s, (i : Int)) = stepE mapping st acc (s, i) := by
  by_cases hlt : i < mapping.length
  · have hlt2 : ((i : Int) < (mapping.length : Int)) := by exact_mod_cast hlt
    rcases hg : getItemE mapping i with msg | item <;>
      simp [stepP, stepE, pyGetItem_ofNat, hg, hlt, hlt2]
  · have hlt2 : ¬((i : Int) < (mapping.length : Int)) := by exact_mod_cast hlt
    simp [stepP, stepE, hlt, hlt2]

/-- With `top_k ≤ ntotal`, FAISS emits no sentinel entries. -/
theorem faissSearchP_no_padding {index : List Vec} {q : Vec} {k : Nat}
    (h : k ≤ index.length) :
    faissSearchP index q k
      = (faissSearch index q k).map (fun p => (p.1, (p.2 : Int))) := by
  simp [faissSearchP, Nat.sub_eq_zero_of_le h]

/-- Folding the cast genuine hits with the faithful integer-index body
equals folding the Nat hits with the guarded body. -/
theorem foldlM_stepP (mapping : List DatasetItem) (st : String) :
    ∀ (hits : List (ℚ × Nat)) (acc : List SearchResult),
      ((hits.map (fun p => (p.1, (p.2 : Int)))).foldlM (stepP mapping st) acc)
        = hits.foldlM (stepE mapping st) acc := by
  intro hits
  induction hits with
  | nil => intro acc; rfl
  | cons h t ih =>
      intro acc
      obtain ⟨s, i⟩ := h
      simp only [List.map_cons, List.foldlM_cons]
      rw [stepP_cast]
      cases hse : stepE mapping st acc (s, i) with
      | error msg => rfl
      | ok acc2 => exact ih acc2

/-- For `top_k ≤ ntotal` the faithful search coincides with the pure
`search_images` and in particular never raises. -/
theorem search_imagesP_ok {m : Models} {e : Engine} {index : List Vec}
    {im : ImageModel} (hidx : e.image_index = some index)
    (him : m.image_model = some im) (query : String) {top_k : Nat}
    (htop : top_k ≤ index.length) :
    search_imagesP m e query top_k = Except.ok (search_images m e query top_k) := by
  have h1 : search_imagesP m e query top_k = search_imagesE m e query top_k := by
    simp only [search_imagesP, search_imagesE, hidx, him,
      faissSearchP_no_padding htop, foldlM_stepP]
  rw [h1, search_imagesE_ok]

/-- C3 counterexample, two concrete refutations of the claim as stated,
against the faithful (sentinel-carrying) search.
(a) Stored vectors `[1]` and the zero vector, query embedding `[-1]`,
`top_k = 2` (no sentinels): ranking does not raise, but the zero-vector
item is returned and ranks FIRST, its score 0 strictly above the other
record's -1.
(b) The zero vector FIRST and `[2]` last, a query scoring
non-negatively against every stored vector, `top_k = 5 > ntotal = 2`:
FAISS pads three `(-FLT_MAX, -1)` sentinel slots; each passes the
`idx < len(mapping)` guard and `mapping[-1]` appends a record of the
LAST item at score -FLT_MAX, so the zero-item record (score 0) again
ranks above other returned records — the padding alone defeats "ranks
last or is excluded", even with all genuine scores non-negative. -/
theorem C3_counterexample :
    (zeroEngine.image_index = some [[1], zeroVec 1] ∧
      search_imagesP negModels zeroEngine "query" 2
        = Except.ok [mkResult "image" itemZ 0, mkResult "image" itemV (-1)] ∧
      (mkResult "image" itemV (-1)).relevance_score
        < (mkResult "image" itemZ 0).relevance_score) ∧
    (padEngine.image_index = some [zeroVec 1, [2]] ∧
      (0 : ℚ) ≤ ipScore [1] (zeroVec 1) ∧ (0 : ℚ) ≤ ipScore [1] [2] ∧
      search_imagesP posModels padEngine "query" 5
        = Except.ok [mkResult "image" itemV 2, mkResult "image" itemZ 0,
            mkResult "image" itemV (-fltMax), mkResult "image" itemV (-fltMax),
            mkResult "image" itemV (-fltMax)] ∧
      (mkResult "image" itemV (-fltMax)).relevance_score
        < (mkResult "image" itemZ 0).relevance_score) := by
  refine ⟨⟨rfl, ?_, by norm_num [mkResult]⟩,
    rfl, by norm_num [ipScore, zeroVec], by norm_num [ipScore], ?_,
    by norm_num [mkResult, fltMax]⟩
  · norm_num [search_imagesP, negModels, zeroEngine, faissSearchP, faissSearch,
      zeroVec, ipScore, stepP, pyGetItem, itemV, itemZ, List.insertionSort,
      List.orderedInsert, List.enum, List.enumFrom, except_ok_bind, except_pure]
  · norm_num [search_imagesP, posModels, padEngine, zeroEngine, faissSearchP,
      faissSearch, zeroVec, ipScore, stepP, pyGetItem, itemV, itemZ,
      List.insertionSort, List.orderedInsert, List.enum, List.enumFrom,
      List.replicate, except_ok_bind, except_pure]

/-- Like `mem_search_images`, with the index and model given. -/
theorem mem_search_images_of {m : Models} {e : Engine} {query : String}
    {top_k : Nat} {r : SearchResult} {index : List Vec} {im : ImageModel}
    (hidx : e.image_index = some index) (him : m.image_model = some im)
    (h : r ∈ search_images m e query top_k) :
    ∃ i, ∃ hi : i < e.image_mapping.length, ∃ hv : i < index.length,
      r = mkResult "image" (e.image_mapping.get ⟨i, hi⟩)
            (ipScore (m.normalize (im.encode_text query)) (index.get ⟨i, hv⟩)) := by
  rw [search_images_eq hidx him query top_k] at h
  obtain ⟨p, hp, hlk⟩ := List.mem_filterMap.1 h
  obtain ⟨sc, i⟩ := p
  obtain ⟨hi, hr⟩ := lookupHit_eq_some hlk
  obtain ⟨hv, hs⟩ := mem_faissSearch hp
  exact ⟨i, hi, hv, by rw [hr, hs]⟩

/-- C3 (amended): over the faithful sentinel-carrying search, provided
`top_k` does not exceed the number of stored vectors (so no
`(-FLT_MAX, -1)` sentinel slots are emitted) and every other stored
vector scores non-negatively against the query embedding (both
conditions the counterexample shows are necessary), ranking over an
image index containing an all-zero vector never raises, the results are
sorted non-increasingly, all scores are non-negative, and the
zero-vector item (identified by its id) receives relevance score 0 and
ranks no higher than any other returned record — i.e. it ranks last or
is excluded. -/
theorem C3_zero_vector_ranks_last (m : Models) (im : ImageModel) (e : Engine)
    (index : List Vec) (d j : Nat) (itj : DatasetItem) (query : String) (top_k : Nat)
    (him : m.image_model = some im) (hidx : e.image_index = some index)
    (htop : top_k ≤ index.length)
    (hjlt : j < index.length) (hjv : index.get ⟨j, hjlt⟩ = zeroVec d)
    (hjm : j < e.image_mapping.length) (hmapj : e.image_mapping.get ⟨j, hjm⟩ = itj)
    (hids : ∀ i : Nat, ∀ hi : i < e.image_mapping.length,
      (e.image_mapping.get ⟨i, hi⟩).id = itj.id → i = j)
    (hnn : ∀ i : Nat, ∀ hi : i < index.length, i ≠ j →
      0 ≤ ipScore (m.normalize (im.encode_text query)) (index.get ⟨i, hi⟩)) :
    search_imagesP m e query top_k = Except.ok (search_images m e query top_k) ∧
    (search_images m e query top_k).Pairwise
      (fun a b => b.relevance_score ≤ a.relevance_score) ∧
    (∀ r ∈ search_images m e query top_k, 0 ≤ r.relevance_score) ∧
    ∀ r ∈ search_images m e query top_k, r.id = itj.id →
      r.relevance_score = 0 ∧
      ∀ r2 ∈ search_images m e query top_k, r.relevance_score ≤ r2.relevance_score := by
  have hgetj : ∀ hv : j < index.length, index.get ⟨j, hv⟩ = zeroVec d := by
    intro hv
    exact hjv
  have hscore : ∀ r ∈ search_images m e query top_k, 0 ≤ r.relevance_score := by
    intro r hr
    obtain ⟨i, hi, hv, hre⟩ := mem_search_images_of hidx him hr
    subst hre
    by_cases hij : i = j
    · subst hij
      simp only [mkResult]
      rw [hgetj hv, ipScore_zeroVec]
    · simp only [mkResult]
      exact hnn i hv hij
  refine ⟨search_imagesP_ok hidx him query htop, ?_, hscore, ?_⟩
  · rw [search_images_eq hidx him query top_k]
    exact filterMap_lookupHit_sorted (faissSearch_sorted index _ top_k)
  · intro r hr hid
    obtain ⟨i, hi, hv, hre⟩ := mem_search_images_of hidx him hr
    have hij : i = j := by
      apply hids i hi
      rw [hre] at hid
      simpa [mkResult] using hid
    subst hij
    have h0 : ipScore (m.normalize (im.encode_text query)) (index.get ⟨i, hv⟩) = 0 := by
      rw [hgetj hv, ipScore_zeroVec]
    subst hre
    constructor
    · simpa [mkResult] using h0
    · intro r2 hr2
      have hr2s := hscore r2 hr2
      have h0g : ipScore (m.normalize (im.encode_text query)) index[i] = 0 := by
        simpa [List.get_eq_getElem] using h0
      simpa [mkResult, h0g] using hr2s

/-- C3 witness: concrete engine with stored vectors `[2]` and the zero
vector, `top_k = 2 = ntotal`, and a query scoring non-negatively
against `[2]`. -/
theorem C3_zero_vector_ranks_last_witness :
    posModels.image_model
        = some { encode_text := fun _ => [1], encode_image := fun _ => none } ∧
    zeroEngine2.image_index = some [[2], zeroVec 1] ∧
    2 ≤ ([[2], zeroVec 1] : List Vec).length ∧
    (search_imagesP posModels zeroEngine2 "query" 2
        = Except.ok (search_images posModels zeroEngine2 "query" 2) ∧
      (search_images posModels zeroEngine2 "query" 2).Pairwise
        (fun a b => b.relevance_score ≤ a.relevance_score) ∧
      (∀ r ∈ search_images posModels zeroEngine2 "query" 2, 0 ≤ r.relevance_score) ∧
      ∀ r ∈ search_images posModels zeroEngine2 "query" 2, r.id = itemZ.id →
        r.relevance_score = 0 ∧
        ∀ r2 ∈ search_images posModels zeroEngine2 "query" 2,
          r.relevance_score ≤ r2.relevance_score) :=
  ⟨rfl, rfl, by decide,
    C3_zero_vector_ranks_last posModels
      { encode_text := fun _ => [1], encode_image := fun _ => none }
      zeroEngine2 [[2], zeroVec 1] 1 1 itemZ "query" 2
      rfl rfl (by decide) (by decide) rfl (by decide) rfl
      (by decide)
      (by
        intro i hi hne
        have hi2 : i < 2 := by simpa using hi
        interval_cases i
        · norm_num [posModels, ipScore]
        · exact absurd rfl hne)⟩

/-- A list of rationals with positive sum has a positive element. -/
theorem exists_pos_of_sum_pos : ∀ l : List ℚ, 0 < l.sum → ∃ x ∈ l, 0 < x := by
  intro l
  induction l with
  | nil => intro h; simp at h
  | cons a t ih =>
      intro h
      by_cases ha : 0 < a
      · exact ⟨a, List.mem_cons_self a t, ha⟩
      · have ht : 0 < t.sum := by
          rw [List.sum_cons] at h
          push_neg at ha
          linarith
        obtain ⟨x, hx, hxp⟩ := ih ht
        exact ⟨x, List.mem_cons_of_mem a hx, hxp⟩

/-- A sample item scores positively only if some query word matches one
of its keywords exactly or occurs in its lowercased content. -/
theorem itemScore_pos_word {query_words : List String} {item : SampleItem}
    (h : 0 < itemScore query_words item) :
    ∃ w ∈ query_words,
      item.keywords.contains w = true
        ∨ containsStr (strToLower item.content) w = true := by
  have hbase : 0 < (query_words.map (fun w =>
      if item.keywords.contains w then (2 : ℚ)
      else if containsStr (strToLower item.content) w then 1 else 0)).sum := by
    by_cases hb : 0 < (query_words.map (fun w =>
        if item.keywords.contains w then (2 : ℚ)
        else if containsStr (strToLower item.content) w then 1 else 0)).sum
    · exact hb
    · have heq : itemScore query_words item
          = (query_words.map (fun w =>
              if item.keywords.contains w then (2 : ℚ)
              else if containsStr (strToLower item.content) w then 1 else 0)).sum := by
        simp only [itemScore]
        rw [if_neg hb]
      rw [heq] at h
      exact absurd h hb
  obtain ⟨x, hx, hxp⟩ := exists_pos_of_sum_pos _ hbase
  obtain ⟨w, hw, hwe⟩ := List.mem_map.1 hx
  refine ⟨w, hw, ?_⟩
  by_cases h1 : item.keywords.contains w
  · exact Or.inl h1
  · by_cases h2 : containsStr (strToLower item.content) w
    · exact Or.inr h2
    · rw [← hwe] at hxp
      rw [if_neg h1, if_neg h2] at hxp
      exact absurd hxp (lt_irrefl 0)

/-- C9: every record returned by `fallback_search` has a relevance
score in `(0, 1]`, comes from a sample item at least one of whose
keywords or content substrings matches a query word, carries that
item's fields, and the returned list is sorted by non-increasing
relevance score with length at most `top_k`. -/
theorem C9_fallback_search_properties (query : String) (top_k : Nat) :
    (fallback_search query top_k).length ≤ top_k ∧
    (fallback_search query top_k).Pairwise
      (fun a b => b.relevance_score ≤ a.relevance_score) ∧
    ∀ r ∈ fallback_search query top_k,
      0 < r.relevance_score ∧ r.relevance_score ≤ 1 ∧
      ∃ item ∈ sample_data,
        r.dataset = item.dataset ∧ r.type = item.type ∧ r.content = item.content ∧
        r.snippet = item.snippet ∧ r.source = item.source ∧
        ∃ w ∈ runsBy isWordChar (strToLower query).data,
          item.keywords.contains w = true
            ∨ containsStr (strToLower item.content) w = true := by
  by_cases hq : (runsBy isWordChar (strToLower query).data).isEmpty = true
  · simp [fallback_search, hq]
  refine ⟨?_, ?_, ?_⟩
  · simp only [fallback_search, hq, if_false]
    exact List.length_take_le _ _
  · simp only [fallback_search, hq, if_false]
    exact (pairwise_insertionSort_key FallbackResult.relevance_score _).sublist
      (List.take_sublist _ _)
  · intro r hr
    simp only [fallback_search, hq, if_false] at hr
    have hr1 := (List.mem_insertionSort fbDesc).1 (List.mem_of_mem_take hr)
    obtain ⟨item, hitem, hfi⟩ := List.mem_filterMap.1 hr1
    by_cases hsc : 0 < itemScore (runsBy isWordChar (strToLower query).data) item
    · rw [if_pos hsc] at hfi
      have hrec := (Option.some_inj.mp hfi).symm
      subst hrec
      refine ⟨?_, ?_, item, hitem, rfl, rfl, rfl, rfl, rfl, itemScore_pos_word hsc⟩
      · exact lt_min (by positivity) one_pos
      · exact min_le_right _ _
    · rw [if_neg hsc] at hfi
      exact absurd hfi (by simp)

/-- `findSub` returns a position within the haystack. -/
theorem findSub_le (pat : List Char) :
    ∀ (l : List Char) (i : Nat), findSub pat l = some i → i ≤ l.length := by
  intro l
  induction l with
  | nil =>
      intro i h
      simp only [findSub] at h
      split at h
      · cases h
        exact Nat.zero_le _
      · cases h
  | cons c t ih =>
      intro i h
      simp only [findSub] at h
      split at h
      · cases h
        exact Nat.zero_le _
      · obtain ⟨i2, hi2, hie⟩ := Option.map_eq_some'.mp h
        have := ih i2 hi2
        simp only [List.length_cons]
        omega

/-- The position found by the `extract_snippet` loop is within the
haystack. -/
theorem firstFound_le (hay : List Char) :
    ∀ (ws : List String) (pos : Nat), firstFound hay ws = some pos → pos ≤ hay.length := by
  intro ws
  induction ws with
  | nil => intro pos h; simp [firstFound] at h
  | cons w t ih =>
      intro pos h
      simp only [firstFound] at h
      rcases hfd : findSub w.data hay with _ | p
      · rw [hfd] at h
        exact ih pos h
      · rw [hfd] at h
        cases h
        exact findSub_le _ _ _ hfd

/-- Stripping whitespace yields a contiguous substring. -/
theorem pyStrip_substring (l : List Char) : pyStrip l <:+: l := by
  have h1 : (l.dropWhile Char.isWhitespace).rdropWhile Char.isWhitespace
      <+: l.dropWhile Char.isWhitespace := List.rdropWhile_prefix _ _
  have h2 : l.dropWhile Char.isWhitespace <:+ l := List.dropWhile_suffix _
  exact (List.IsPrefix.isInfix h1).trans (List.IsSuffix.isInfix h2)

/-- Stripping whitespace does not lengthen a list. -/
theorem pyStrip_length_le (l : List Char) : (pyStrip l).length ≤ l.length :=
  (pyStrip_substring l).length_le

/-- A Python slice is a contiguous substring. -/
theorem pySlice_substring (l : List Char) (a b : Nat) : pySlice l a b <:+: l := by
  have h1 : (l.take b).drop a <:+ l.take b := List.drop_suffix _ _
  have h2 := List.take_prefix b l
  exact (List.IsSuffix.isInfix h1).trans (List.IsPrefix.isInfix h2)

/-- Length of a Python slice. -/
theorem pySlice_length (l : List Char) (a b : Nat) :
    (pySlice l a b).length = min b l.length - a := by
  simp [pySlice, List.length_drop, List.length_take]

/-- C10: `extract_snippet` never raises (it is a total function of its
inputs), and its result decomposes as an optional leading `"..."`, a
core that is a contiguous substring of the original content of length
at most 200 characters, and an optional trailing `"..."`. -/
theorem C10_extract_snippet_bounded (content query : String) :
    ∃ pre core suf : List Char,
      (extract_snippet content query).data = pre ++ core ++ suf ∧
      (pre = [] ∨ pre = "...".data) ∧ (suf = [] ∨ suf = "...".data) ∧
      core <:+: content.data ∧ core.length ≤ 200 := by
  rcases hf : firstFound (strToLower content).data
      (runsBy (fun c => !c.isWhitespace) query.data) with _ | pos
  · by_cases hlen : 200 < content.data.length
    · refine ⟨[], content.data.take 200, "...".data, ?_, Or.inl rfl, Or.inr rfl, ?_, ?_⟩
      · simp only [extract_snippet, hf, hlen, if_true, List.nil_append]
      · have ht := List.take_prefix 200 content.data
        exact ht.isInfix
      · simp
    · refine ⟨[], content.data, [], ?_, Or.inl rfl, Or.inl rfl, List.infix_refl _, by omega⟩
      simp only [extract_snippet, hf, hlen, if_false, List.nil_append, List.append_nil]
  · have hpos : pos ≤ content.data.length := by
      have h1 := firstFound_le (strToLower content).data _ pos hf
      simpa [strToLower] using h1
    refine ⟨(if 0 < pos - 100 then "...".data else []),
        pyStrip (pySlice content.data (pos - 100) (min content.data.length (pos + 100))),
        (if min content.data.length (pos + 100) < content.data.length
          then "...".data else []), ?_, ?_, ?_, ?_, ?_⟩
    · simp only [extract_snippet, hf]
      by_cases h1 : 0 < pos - 100 <;>
        by_cases h2 : min content.data.length (pos + 100) < content.data.length <;>
          simp only [h1, h2, if_true, if_false, List.append_assoc, List.nil_append,
            List.append_nil]
    · by_cases h1 : 0 < pos - 100
      · rw [if_pos h1]
        exact Or.inr rfl
      · rw [if_neg h1]
        exact Or.inl rfl
    · by_cases h2 : min content.data.length (pos + 100) < content.data.length
      · rw [if_pos h2]
        exact Or.inr rfl
      · rw [if_neg h2]
        exact Or.inl rfl
    · exact (pyStrip_substring _).trans (pySlice_substring _ _ _)
    · have hs1 := pyStrip_length_le
        (pySlice content.data (pos - 100) (min content.data.length (pos + 100)))
      have hs2 := pySlice_length content.data (pos - 100)
        (min content.data.length (pos + 100))
      have h3 : min content.data.length (pos + 100) ≤ pos + 100 := min_le_right _ _
      have h4 : min (min content.data.length (pos + 100)) content.data.length
          ≤ min content.data.length (pos + 100) := min_le_left _ _
      omega

end Healthify
